import Mathlib

/-
Shallow embedding of the batched, retrying MongoDB persistence core of the
repository (file persistence/db/mongo/init of the package), centred on
MongoPersistence.persist, MongoPersistence.finalize,
MongoPersistence.make_update_op, MongoPersistence.make_bulk_update,
MongoPersistence.do_update and MongoPersistence.drop_model_data.

Modelling conventions:

* Records, query maps, update maps and model instances are abstract type
  parameters (alpha, beta, gamma, mu): the Python code treats them opaquely
  and only moves them around.
* The record queue is a Python collections.deque, modelled as a list whose
  HEAD is the LEFT end of the deque.  persist uses queue.appendleft (cons);
  the flush paths use queue.pop, which removes the RIGHT end, i.e. the last
  list element.  Draining the whole deque by repeated pop therefore yields
  the list reversed (oldest record first).
* The document store is an oracle store : Nat -> Option Nat consulted once
  per actual store invocation (bulk write or insert many), indexed by the
  number of store invocations made so far inside one do_update call; none
  means the invocation succeeds, some c means it raises a store error with
  identity c.
* Effects (store invocations, log lines, sleeps) are collected in an event
  trace.  The retry loop of do_update contains no sleep call in the source,
  so no definition below ever emits Event.sleep; the constructor exists so
  that its absence from every trace is a statable property.
* Exceptions are modelled explicitly.  Python 3 clears the name bound by
  an except-as clause when the clause exits (the language reference turns
  except E as N into a finally: del N), so after a failed final attempt the
  name exc read by the trailing if exc: raise exc is UNBOUND and the read
  itself raises NameError (UnboundLocalError).  ExcSt tracks exactly the
  binding states that variable can be in at the end of the loop.
* Keyword-argument plumbing is modelled at its defaults: the claims under
  verification pass no per-operation kwds, so make_update_op uses the
  configured multiple and upsert values and bulk_write receives the default
  bulk_write_kwds, namely ordered=False.
-/

namespace Tesse

/-- A pymongo write operation as built by make_update_op: UpdateOne or
UpdateMany, carrying the filter produced by the configured query function,
the update document produced by the configured processor, and the upsert
flag. -/
inductive WriteOp (β γ : Type) where
  | updateOne (filter : β) (upd : γ) (upsert : Bool)
  | updateMany (filter : β) (upd : γ) (upsert : Bool)
  deriving DecidableEq

/-- Shape of the message logged by a failed attempt inside do_update:
single is the n_attempts == 1 message, retrying is the message naming the
attempt number and the number of retries left, last is the final-attempt
message. -/
inductive FailLog where
  | single
  | retrying (attempt n_left : Nat)
  | last (attempt : Nat)
  deriving DecidableEq

/-- Errors that can be caught by the except clause of do_update: a store
error raised by a bulk-write or insert invocation (with an identity so that
distinct errors are distinguishable), or the IndexError raised by popping
an empty deque. -/
inductive Err where
  | storeErr (code : Nat)
  | indexError
  deriving DecidableEq

/-- Exceptions that can propagate out of do_update: a caught error that is
re-raised, or the NameError produced by reading the local name exc after
the except clause has unbound it. -/
inductive PyErr where
  | raised (e : Err)
  | nameError
  deriving DecidableEq

/-- Python return values relevant here: True, False and None. -/
inductive PyRet where
  | pTrue
  | pFalse
  | pNone
  deriving DecidableEq

/-- How a call finishes: a normal return carrying a Python value, or a
propagating exception. -/
inductive Outcome where
  | ret (v : PyRet)
  | exn (e : PyErr)
  deriving DecidableEq

/-- Binding state of the local variable exc of do_update when it is read by
the trailing if exc: raise exc.  It is initialised to None (noneVal) and
reset to None just before a successful break; when an except-as clause
exits, Python 3 deletes the name, leaving it unbound. -/
inductive ExcSt where
  | noneVal
  | unbound
  deriving DecidableEq

/-- Observable effects of one do_update invocation, in order: store
invocations (bulk write with its operations and ordered flag, or insert
with its model instances), the exception log line of a failed attempt, the
success summary log line (records in this batch, cumulative counter), and a
backoff sleep.  The source never sleeps, so sleep is never emitted. -/
inductive Event (α β γ μ : Type) where
  | bulkWrite (ops : List (WriteOp β γ)) (ordered : Bool)
  | insertMany (docs : List μ)
  | logExc (m : FailLog) (e : Err)
  | logInfo (n_docs total : Nat)
  | sleep (seconds : Int)
  deriving DecidableEq

/-- Configuration of a MongoPersistence instance.  batch_size is None or an
int (Python treats None, 0 and negatives alike here); query, processor and
model are the caller-supplied filter extractor, update-document builder and
model constructor; from_dict is the optional from_dict classmethod of the
model (present or absent); logger tells whether a logger is configured. -/
structure Config (α β γ μ : Type) where
  batch_size : Option Int
  multiple : Bool
  upsert : Bool
  update : Bool
  n_retry : Nat
  backoff_time : Int
  logger : Bool
  query : α → β
  processor : α → γ
  model : α → μ
  from_dict : Option (α → α)

/-- Mutable state of a MongoPersistence instance: the record deque (head is
the left end) and the cumulative counter. -/
structure PersistState (α : Type) where
  queue : List α
  count : Nat
  deriving DecidableEq

/-- Result of one attempt body (the try-block): the queue and store-call
counter afterwards, the events emitted, and the error raised, if any. -/
structure AttemptRes (α β γ μ : Type) where
  queue : List α
  calls : Nat
  evs : List (Event α β γ μ)
  err : Option Err
  deriving DecidableEq

/-- Result of the retry while-loop of do_update: queue, store-call counter,
events, and the binding state of the local exc. -/
structure LoopRes (α β γ μ : Type) where
  queue : List α
  calls : Nat
  evs : List (Event α β γ μ)
  exc : ExcSt
  deriving DecidableEq

/-- Full result of a do_update (or persist) call: the persistence state
afterwards, the event trace, and the outcome. -/
structure UpdateRes (α β γ μ : Type) where
  state : PersistState α
  evs : List (Event α β γ μ)
  out : Outcome
  deriving DecidableEq

variable {α β γ μ : Type}

/-- Resolution of the effective minimal batch size in do_update: an
explicit per-call min_batch_size takes precedence over the configured
batch_size; a missing or non-positive value becomes math.inf, rendered here
as none (the Python test is: if min_batch_size is None, use math.inf when
not self.batch_size or self.batch_size is non-positive, else batch_size;
elif min_batch_size is non-positive, use math.inf). -/
def effective_min_batch_size (batch_size : Option Int) (arg : Option Int) : Option Int :=
  match arg with
  | some m => if m ≤ 0 then none else some m
  | none =>
    match batch_size with
    | none => none
    | some b => if b ≤ 0 then none else some b

/-- The threshold test n_docs < min_batch_size of do_update, where none is
math.inf (every finite count is below it). -/
def below_threshold (n_docs : Nat) (eff : Option Int) : Bool :=
  match eff with
  | none => true
  | some m => decide ((n_docs : Int) < m)

/-- make_update_op: builds UpdateMany or UpdateOne from the configured
query and processor applied to the document, with the configured multiple
and upsert flags (the None defaults of the method resolve to the
configuration values on the paths modelled here). -/
def make_update_op (cfg : Config α β γ μ) (doc : α) : WriteOp β γ :=
  if cfg.multiple then
    WriteOp.updateMany (cfg.query doc) (cfg.processor doc) cfg.upsert
  else
    WriteOp.updateOne (cfg.query doc) (cfg.processor doc) cfg.upsert

/-- make_bulk_update: drains the whole deque by popping from the right end
(so operations are built oldest record first), then, only when the drained
operation list is non-empty, invokes bulk_write on the collection with
ordered=False.  The queue is left empty in every case. -/
def make_bulk_update (cfg : Config α β γ μ) (store : Nat → Option Nat) :
    List α → Nat → AttemptRes α β γ μ
  | [], calls => ⟨[], calls, [], none⟩
  | a :: l, calls =>
    match store calls with
    | none =>
      ⟨[], calls + 1,
        [Event.bulkWrite ((a :: l).reverse.map (make_update_op cfg)) false], none⟩
    | some c =>
      ⟨[], calls + 1,
        [Event.bulkWrite ((a :: l).reverse.map (make_update_op cfg)) false],
        some (Err.storeErr c)⟩

/-- The insert branch of one do_update attempt: pops n_docs records from
the right end of the deque (raising IndexError when the deque runs out,
which leaves it fully drained), builds a model instance from each popped
record in pop order (oldest first), and invokes objects.insert with those
instances. -/
def insert_attempt (cfg : Config α β γ μ) (store : Nat → Option Nat)
    (n_docs : Nat) (queue : List α) (calls : Nat) : AttemptRes α β γ μ :=
  if queue.length < n_docs then
    ⟨[], calls, [], some Err.indexError⟩
  else
    match store calls with
    | none =>
      ⟨queue.take (queue.length - n_docs), calls + 1,
        [Event.insertMany ((queue.reverse.take n_docs).map cfg.model)], none⟩
    | some c =>
      ⟨queue.take (queue.length - n_docs), calls + 1,
        [Event.insertMany ((queue.reverse.take n_docs).map cfg.model)],
        some (Err.storeErr c)⟩

/-- The log line emitted by a failed attempt, when a logger is configured:
the single-attempt message when n_attempts is 1, the retrying message while
retries remain, the last-attempt message otherwise. -/
def log_fail_events (cfg : Config α β γ μ) (n_attempts attempt n_left : Nat) (e : Err) :
    List (Event α β γ μ) :=
  if cfg.logger then
    [Event.logExc
      (if n_attempts = 1 then FailLog.single
       else if 0 < n_left then FailLog.retrying attempt n_left
       else FailLog.last attempt) e]
  else []

/-- The retry while-loop of do_update (while attempt < n_attempts), run on
fuel = n_attempts - attempt.  Each iteration re-runs the attempt body on
the CURRENT queue (which the first attempt drained), records the events, on
success sets exc to None and breaks, and on failure logs and leaves exc
unbound (the except clause deletes the name on exit). -/
def update_loop (cfg : Config α β γ μ) (store : Nat → Option Nat) (upd : Bool)
    (n_attempts n_docs : Nat) :
    Nat → Nat → List α → Nat → ExcSt → LoopRes α β γ μ
  | 0, _, queue, calls, exc => ⟨queue, calls, [], exc⟩
  | fuel + 1, attempt, queue, calls, _ =>
    let step :=
      if upd then make_bulk_update cfg store queue calls
      else insert_attempt cfg store n_docs queue calls
    match step.err with
    | none => ⟨step.queue, step.calls, step.evs, ExcSt.noneVal⟩
    | some e =>
      let r := update_loop cfg store upd n_attempts n_docs fuel
        (attempt + 1) step.queue step.calls ExcSt.unbound
      ⟨r.queue, r.calls,
        step.evs ++ log_fail_events cfg n_attempts (attempt + 1) (n_attempts - (attempt + 1)) e
          ++ r.evs,
        r.exc⟩

/-- One iteration of the retry loop, factored out for reasoning: given the
result of the attempt body, either break successfully or log, lose the
binding of exc and continue with the remaining fuel.  update_loop at
successor fuel definitionally equals this applied to its attempt. -/
def loop_step (cfg : Config α β γ μ) (store : Nat → Option Nat) (upd : Bool)
    (na nd fuel attempt : Nat) (step : AttemptRes α β γ μ) : LoopRes α β γ μ :=
  match step.err with
  | none => ⟨step.queue, step.calls, step.evs, ExcSt.noneVal⟩
  | some e =>
    let r := update_loop cfg store upd na nd fuel (attempt + 1) step.queue step.calls
      ExcSt.unbound
    ⟨r.queue, r.calls,
      step.evs ++ log_fail_events cfg na (attempt + 1) (na - (attempt + 1)) e ++ r.evs,
      r.exc⟩

/-- The tail of do_update after the retry loop: if exc: raise exc, then the
success summary log, then the implicit return None.  When the last attempt
failed the name exc is unbound, so the read raises NameError; when exc is
None the code falls through, logs the summary with the n_docs counted at
entry, and returns None (the method body has no return True statement). -/
def finish_update (cfg : Config α β γ μ) (st : PersistState α) (r : LoopRes α β γ μ) :
    UpdateRes α β γ μ :=
  match r.exc with
  | ExcSt.unbound => ⟨⟨r.queue, st.count⟩, r.evs, Outcome.exn PyErr.nameError⟩
  | ExcSt.noneVal =>
    ⟨⟨r.queue, st.count⟩,
      r.evs ++ (if cfg.logger then [Event.logInfo st.queue.length st.count] else []),
      Outcome.ret PyRet.pNone⟩

/-- do_update: resolves the update flag (argument over configuration),
counts the queued documents, resolves the effective minimal batch size,
returns False without any effect when the count is below it, and otherwise
runs 1 + n_retry attempts of the flush body. -/
def do_update (cfg : Config α β γ μ) (store : Nat → Option Nat) (st : PersistState α)
    (min_batch_size : Option Int) (update_arg : Option Bool) : UpdateRes α β γ μ :=
  if below_threshold st.queue.length (effective_min_batch_size cfg.batch_size min_batch_size) then
    ⟨st, [], Outcome.ret PyRet.pFalse⟩
  else
    finish_update cfg st
      (update_loop cfg store (update_arg.getD cfg.update) (1 + cfg.n_retry) st.queue.length
        (1 + cfg.n_retry) 0 st.queue 0 ExcSt.noneVal)

/-- The document actually queued by persist: when the model class has a
from_dict method the document is first transformed by
model.from_dict(doc, only_dict=True), otherwise it is queued unchanged. -/
def apply_from_dict (cfg : Config α β γ μ) (doc : α) : α :=
  match cfg.from_dict with
  | some f => f doc
  | none => doc

/-- persist: increments the counter (self.inc — the counter component lives
outside the mongo module; modelled from the spec, which fixes it to exactly
one increment per persist call), pushes the possibly transformed document
on the LEFT end of the deque, and calls do_update with no overrides.  The
method body has no return statement, so it returns None whatever do_update
returned; an exception from do_update propagates. -/
def persist (cfg : Config α β γ μ) (store : Nat → Option Nat) (st : PersistState α)
    (doc : α) : UpdateRes α β γ μ :=
  let r := do_update cfg store ⟨apply_from_dict cfg doc :: st.queue, st.count + 1⟩ none none
  match r.out with
  | Outcome.exn e => ⟨r.state, r.evs, Outcome.exn e⟩
  | Outcome.ret _ => ⟨r.state, r.evs, Outcome.ret PyRet.pNone⟩

/-- finalize: a single call of do_update with min_batch_size=1 (its own
return value is discarded by the Python method, which returns None). -/
def finalize (cfg : Config α β γ μ) (store : Nat → Option Nat) (st : PersistState α) :
    UpdateRes α β γ μ :=
  do_update cfg store st (some 1) none

/-- The deletion run by the callable that drop_model_data wraps a mapping
query into: model.objects with the mapping as a raw query, then delete,
which removes every matching document of the collection and returns how
many were removed.  The raw-query semantics of the store is the abstract
raw_match predicate. -/
def delete_by_query {δ q : Type} (raw_match : q → δ → Bool) (query : q) (coll : List δ) :
    List δ × Nat :=
  (coll.filter (fun d => !(raw_match query d)), coll.countP (raw_match query))

/-- Modelled from the spec: DBPersistence.drop_model_data, the base-class
method called by the mongo override, is defined outside src.  Per the
StoreAdapter contract of the spec (deleteByQuery returns the deleted count)
and the method docstring (a callable query is called on self and the
result is returned), it applies the query callable to the collection state
and returns the resulting state and count. -/
def super_drop_model_data {δ : Type} (query : List δ → List δ × Nat) (coll : List δ) :
    List δ × Nat :=
  query coll

/-- drop_model_data of MongoPersistence, on the mapping branch: the mapping
is wrapped into a callable deleting by raw query, the base method is
invoked with it, and its result is DISCARDED — the override ends with a
bare call statement and no return, so the method itself returns None. -/
def drop_model_data {δ q : Type} (raw_match : q → δ → Bool) (query : q) (coll : List δ) :
    List δ × PyRet :=
  let res := super_drop_model_data (fun c => delete_by_query raw_match query c) coll
  (res.1, PyRet.pNone)

/-- Recogniser for store-invocation events. -/
def is_store_call : Event α β γ μ → Bool
  | Event.bulkWrite _ _ => true
  | Event.insertMany _ => true
  | _ => false

/-- Recogniser for sleep events. -/
def is_sleep : Event α β γ μ → Bool
  | Event.sleep _ => true
  | _ => false

/-- Whether the first event of a trace is a store invocation. -/
def head_is_store_call : List (Event α β γ μ) → Bool
  | [] => false
  | e :: _ => is_store_call e

/-- Concrete configuration over Nat records used by the evaluation
theorems: filter is the record itself, the update document is the record
plus 100, the model instance is the record itself, no from_dict, single
updates with upsert, logger on. -/
def natCfg (bs : Option Int) (retries : Nat) (upd : Bool) (bt : Int) :
    Config Nat Nat Nat Nat :=
  { batch_size := bs
    multiple := false
    upsert := true
    update := upd
    n_retry := retries
    backoff_time := bt
    logger := true
    query := fun d => d
    processor := fun d => d + 100
    model := fun d => d
    from_dict := none }

/-- A store oracle that fails on every invocation, the k-th with error
identity k. -/
def storeFailAll : Nat → Option Nat := fun k => some k

/-- A store oracle that succeeds on every invocation. -/
def storeOK : Nat → Option Nat := fun _ => none

/-- Raw-query semantics over Nat documents used by the evaluation theorem
for drop_model_data: a document matches when it equals the query. -/
def natMatch : Nat → Nat → Bool := fun q d => q == d

/-- Variant of natCfg whose model class defines from_dict (adding 10 to the
record), as used by the persist transformation witness. -/
def natCfgFD : Config Nat Nat Nat Nat :=
  { natCfg (some 5) 0 true 0 with from_dict := some (fun d => d + 10) }

/-- A do_update call whose document count is below the effective minimal
batch size returns False and has no effect: the state is untouched and no
event is emitted. -/
lemma do_update_noop (cfg : Config α β γ μ) (store : Nat → Option Nat) (st : PersistState α)
    (m : Option Int) (ua : Option Bool)
    (h : below_threshold st.queue.length (effective_min_batch_size cfg.batch_size m) = true) :
    do_update cfg store st m ua = ⟨st, [], Outcome.ret PyRet.pFalse⟩ := by
  simp [do_update, h]

/-- A do_update call whose document count meets the effective minimal batch
size runs the retry loop and its epilogue. -/
lemma do_update_flush (cfg : Config α β γ μ) (store : Nat → Option Nat) (st : PersistState α)
    (m : Option Int) (ua : Option Bool)
    (hth : below_threshold st.queue.length (effective_min_batch_size cfg.batch_size m) = false) :
    do_update cfg store st m ua =
      finish_update cfg st
        (update_loop cfg store (ua.getD cfg.update) (1 + cfg.n_retry) st.queue.length
          (1 + cfg.n_retry) 0 st.queue 0 ExcSt.noneVal) := by
  simp [do_update, hth]

/-- Unfolding of the retry loop at successor fuel in update mode. -/
lemma update_loop_succ_true (cfg : Config α β γ μ) (store : Nat → Option Nat)
    (na nd fuel attempt : Nat) (queue : List α) (calls : Nat) (exc : ExcSt) :
    update_loop cfg store true na nd (fuel + 1) attempt queue calls exc =
      loop_step cfg store true na nd fuel attempt (make_bulk_update cfg store queue calls) :=
  rfl

/-- Unfolding of the retry loop at successor fuel in insert mode. -/
lemma update_loop_succ_false (cfg : Config α β γ μ) (store : Nat → Option Nat)
    (na nd fuel attempt : Nat) (queue : List α) (calls : Nat) (exc : ExcSt) :
    update_loop cfg store false na nd (fuel + 1) attempt queue calls exc =
      loop_step cfg store false na nd fuel attempt
        (insert_attempt cfg store nd queue calls) :=
  rfl

/-- A successful attempt breaks the loop with exc reset to None. -/
lemma loop_step_ok (cfg : Config α β γ μ) (store : Nat → Option Nat) (upd : Bool)
    (na nd fuel attempt : Nat) (step : AttemptRes α β γ μ) (hok : step.err = none) :
    loop_step cfg store upd na nd fuel attempt step =
      ⟨step.queue, step.calls, step.evs, ExcSt.noneVal⟩ := by
  unfold loop_step
  rw [hok]

/-- A failed attempt logs, loses the binding of exc and continues. -/
lemma loop_step_fail (cfg : Config α β γ μ) (store : Nat → Option Nat) (upd : Bool)
    (na nd fuel attempt : Nat) (step : AttemptRes α β γ μ) (e : Err)
    (he : step.err = some e) :
    loop_step cfg store upd na nd fuel attempt step =
      ⟨(update_loop cfg store upd na nd fuel (attempt + 1) step.queue step.calls
          ExcSt.unbound).queue,
        (update_loop cfg store upd na nd fuel (attempt + 1) step.queue step.calls
          ExcSt.unbound).calls,
        step.evs ++ log_fail_events cfg na (attempt + 1) (na - (attempt + 1)) e
          ++ (update_loop cfg store upd na nd fuel (attempt + 1) step.queue step.calls
            ExcSt.unbound).evs,
        (update_loop cfg store upd na nd fuel (attempt + 1) step.queue step.calls
          ExcSt.unbound).exc⟩ := by
  unfold loop_step
  rw [he]

/-- Behaviour of the bulk-update attempt on a non-empty queue when the
store invocation succeeds. -/
lemma make_bulk_update_eq_ok (cfg : Config α β γ μ) (store : Nat → Option Nat)
    (a : α) (l : List α) (calls : Nat) (hs : store calls = none) :
    make_bulk_update cfg store (a :: l) calls =
      ⟨[], calls + 1,
        [Event.bulkWrite ((a :: l).reverse.map (make_update_op cfg)) false], none⟩ := by
  unfold make_bulk_update
  dsimp only
  rw [hs]

/-- Behaviour of the bulk-update attempt on a non-empty queue when the
store invocation fails. -/
lemma make_bulk_update_eq_err (cfg : Config α β γ μ) (store : Nat → Option Nat)
    (a : α) (l : List α) (calls c : Nat) (hs : store calls = some c) :
    make_bulk_update cfg store (a :: l) calls =
      ⟨[], calls + 1,
        [Event.bulkWrite ((a :: l).reverse.map (make_update_op cfg)) false],
        some (Err.storeErr c)⟩ := by
  unfold make_bulk_update
  dsimp only
  rw [hs]

/-- Behaviour of the insert attempt when enough records are queued and the
store invocation succeeds. -/
lemma insert_attempt_eq_ok (cfg : Config α β γ μ) (store : Nat → Option Nat)
    (n_docs : Nat) (queue : List α) (calls : Nat)
    (h : ¬ queue.length < n_docs) (hs : store calls = none) :
    insert_attempt cfg store n_docs queue calls =
      ⟨queue.take (queue.length - n_docs), calls + 1,
        [Event.insertMany ((queue.reverse.take n_docs).map cfg.model)], none⟩ := by
  unfold insert_attempt
  rw [if_neg h, hs]

/-- Behaviour of the insert attempt when enough records are queued and the
store invocation fails. -/
lemma insert_attempt_eq_err (cfg : Config α β γ μ) (store : Nat → Option Nat)
    (n_docs : Nat) (queue : List α) (calls c : Nat)
    (h : ¬ queue.length < n_docs) (hs : store calls = some c) :
    insert_attempt cfg store n_docs queue calls =
      ⟨queue.take (queue.length - n_docs), calls + 1,
        [Event.insertMany ((queue.reverse.take n_docs).map cfg.model)],
        some (Err.storeErr c)⟩ := by
  unfold insert_attempt
  rw [if_neg h, hs]

/-- Behaviour of the insert attempt when the deque runs out of records. -/
lemma insert_attempt_eq_short (cfg : Config α β γ μ) (store : Nat → Option Nat)
    (n_docs : Nat) (queue : List α) (calls : Nat) (h : queue.length < n_docs) :
    insert_attempt cfg store n_docs queue calls = ⟨[], calls, [], some Err.indexError⟩ := by
  unfold insert_attempt
  rw [if_pos h]

/-- No sleep event is ever emitted by the bulk-update attempt body. -/
lemma sleep_not_mem_bulk (cfg : Config α β γ μ) (store : Nat → Option Nat)
    (queue : List α) (calls : Nat) (t : Int) :
    Event.sleep t ∉ (make_bulk_update cfg store queue calls).evs := by
  cases queue with
  | nil => simp [make_bulk_update]
  | cons a l =>
    cases hs : store calls with
    | none => rw [make_bulk_update_eq_ok cfg store a l calls hs]; simp
    | some c => rw [make_bulk_update_eq_err cfg store a l calls c hs]; simp

/-- No sleep event is ever emitted by the insert attempt body. -/
lemma sleep_not_mem_insert (cfg : Config α β γ μ) (store : Nat → Option Nat)
    (n_docs : Nat) (queue : List α) (calls : Nat) (t : Int) :
    Event.sleep t ∉ (insert_attempt cfg store n_docs queue calls).evs := by
  by_cases h : queue.length < n_docs
  · rw [insert_attempt_eq_short cfg store n_docs queue calls h]; simp
  · cases hs : store calls with
    | none => rw [insert_attempt_eq_ok cfg store n_docs queue calls h hs]; simp
    | some c => rw [insert_attempt_eq_err cfg store n_docs queue calls c h hs]; simp

/-- No sleep event is ever emitted by the failure log. -/
lemma sleep_not_mem_log (cfg : Config α β γ μ) (na a nl : Nat) (e : Err) (t : Int) :
    Event.sleep t ∉ (log_fail_events cfg na a nl e : List (Event α β γ μ)) := by
  unfold log_fail_events
  split <;> simp

/-- No sleep event is ever emitted by the retry loop of do_update. -/
lemma sleep_not_mem_loop (cfg : Config α β γ μ) (store : Nat → Option Nat) (upd : Bool)
    (na nd : Nat) :
    ∀ (fuel attempt : Nat) (queue : List α) (calls : Nat) (exc : ExcSt) (t : Int),
      Event.sleep t ∉ (update_loop cfg store upd na nd fuel attempt queue calls exc).evs := by
  intro fuel
  induction fuel with
  | zero =>
    intro attempt queue calls exc t
    simp [update_loop]
  | succ k ih =>
    intro attempt queue calls exc t
    cases upd with
    | true =>
      rw [update_loop_succ_true]
      cases herr : (make_bulk_update cfg store queue calls).err with
      | none =>
        rw [loop_step_ok cfg store true na nd k attempt _ herr]
        exact sleep_not_mem_bulk cfg store queue calls t
      | some e =>
        rw [loop_step_fail cfg store true na nd k attempt _ e herr]
        dsimp only
        simp only [List.mem_append]
        rintro ((h1 | h2) | h3)
        · exact sleep_not_mem_bulk cfg store queue calls t h1
        · exact sleep_not_mem_log cfg na (attempt + 1) (na - (attempt + 1)) e t h2
        · exact ih (attempt + 1) _ _ ExcSt.unbound t h3
    | false =>
      rw [update_loop_succ_false]
      cases herr : (insert_attempt cfg store nd queue calls).err with
      | none =>
        rw [loop_step_ok cfg store false na nd k attempt _ herr]
        exact sleep_not_mem_insert cfg store nd queue calls t
      | some e =>
        rw [loop_step_fail cfg store false na nd k attempt _ e herr]
        dsimp only
        simp only [List.mem_append]
        rintro ((h1 | h2) | h3)
        · exact sleep_not_mem_insert cfg store nd queue calls t h1
        · exact sleep_not_mem_log cfg na (attempt + 1) (na - (attempt + 1)) e t h2
        · exact ih (attempt + 1) _ _ ExcSt.unbound t h3

/-- The epilogue of do_update never produces the False return of the
threshold branch: it either raises or returns None. -/
lemma finish_update_out_ne_false (cfg : Config α β γ μ) (st : PersistState α)
    (r : LoopRes α β γ μ) :
    (finish_update cfg st r).out ≠ Outcome.ret PyRet.pFalse := by
  unfold finish_update
  split <;> simp

/-- The epilogue of do_update preserves the first event of the loop
trace. -/
lemma finish_update_head (cfg : Config α β γ μ) (st : PersistState α) (r : LoopRes α β γ μ)
    (e : Event α β γ μ) (h : r.evs.head? = some e) :
    (finish_update cfg st r).evs.head? = some e := by
  unfold finish_update
  split
  · exact h
  · cases hevs : r.evs with
    | nil => rw [hevs] at h; cases h
    | cons a l =>
      rw [hevs] at h
      simp only [List.head?_cons, Option.some.injEq] at h
      simp [hevs, h]

/-- In update mode the first attempt of the retry loop opens the trace with
the bulk-write invocation carrying one operation per drained record, built
by popping from the right end of the deque — i.e. in oldest-record-first
order, the reverse of the left-to-right deque contents. -/
lemma update_loop_head_bulk (cfg : Config α β γ μ) (store : Nat → Option Nat)
    (na nd fuel attempt calls : Nat) (queue : List α) (exc : ExcSt)
    (hq : queue ≠ []) :
    (update_loop cfg store true na nd (fuel + 1) attempt queue calls exc).evs.head? =
      some (Event.bulkWrite (queue.reverse.map (make_update_op cfg)) false) := by
  obtain ⟨a, l, rfl⟩ : ∃ a l, queue = a :: l := by
    cases queue with
    | nil => exact absurd rfl hq
    | cons a l => exact ⟨a, l, rfl⟩
  rw [update_loop_succ_true]
  cases hs : store calls with
  | none =>
    rw [make_bulk_update_eq_ok cfg store a l calls hs,
      loop_step_ok cfg store true na nd fuel attempt _ rfl]
    rfl
  | some c =>
    rw [make_bulk_update_eq_err cfg store a l calls c hs,
      loop_step_fail cfg store true na nd fuel attempt _ (Err.storeErr c) rfl]
    rfl

/-- In insert mode the first attempt of the retry loop (with the document
count taken from the very queue, as do_update does on entry) opens the
trace with the insert invocation carrying one model instance per popped
record, again in oldest-record-first order. -/
lemma update_loop_head_insert (cfg : Config α β γ μ) (store : Nat → Option Nat)
    (na fuel attempt calls : Nat) (queue : List α) (exc : ExcSt) :
    (update_loop cfg store false na queue.length (fuel + 1) attempt queue calls
        exc).evs.head? =
      some (Event.insertMany ((queue.reverse.take queue.length).map cfg.model)) := by
  rw [update_loop_succ_false]
  cases hs : store calls with
  | none =>
    rw [insert_attempt_eq_ok cfg store queue.length queue calls (Nat.lt_irrefl _) hs,
      loop_step_ok cfg store false na queue.length fuel attempt _ rfl]
    rfl
  | some c =>
    rw [insert_attempt_eq_err cfg store queue.length queue calls c (Nat.lt_irrefl _) hs,
      loop_step_fail cfg store false na queue.length fuel attempt _ (Err.storeErr c) rfl]
    rfl

/-- Bridge from the optional head of a trace to the head recogniser. -/
lemma head_is_store_call_of_head {l : List (Event α β γ μ)} {e : Event α β γ μ}
    (h : l.head? = some e) (he : is_store_call e = true) : head_is_store_call l = true := by
  cases l with
  | nil => cases h
  | cons a t =>
    simp only [List.head?_cons, Option.some.injEq] at h
    rw [head_is_store_call, h]
    exact he

/-- Whenever the threshold is met and the queue is non-empty, the flush run
by do_update begins with an actual store invocation, in either mode. -/
lemma flush_head_store_call (cfg : Config α β γ μ) (store : Nat → Option Nat)
    (st : PersistState α) (m : Option Int) (ua : Option Bool)
    (hth : below_threshold st.queue.length (effective_min_batch_size cfg.batch_size m) = false)
    (hne : st.queue ≠ []) :
    head_is_store_call (do_update cfg store st m ua).evs = true := by
  rw [do_update_flush cfg store st m ua hth, Nat.add_comm 1 cfg.n_retry]
  cases hcu : ua.getD cfg.update with
  | false =>
    exact head_is_store_call_of_head
      (finish_update_head _ _ _ _
        (update_loop_head_insert cfg store (cfg.n_retry + 1) cfg.n_retry 0 0 st.queue
          ExcSt.noneVal)) rfl
  | true =>
    exact head_is_store_call_of_head
      (finish_update_head _ _ _ _
        (update_loop_head_bulk cfg store (cfg.n_retry + 1) st.queue.length cfg.n_retry 0 0
          st.queue ExcSt.noneVal hne)) rfl

/-- C1: claimed — with n_retry = R against a store failing on every
invocation, do_update makes exactly R + 1 attempts, logs each, and raises
the last observed store error.  What the code does instead, evaluated
here: with R = 1 in update mode the first attempt drains the deque and
fails, the second attempt re-drains the now empty deque, builds no
operations, skips the store invocation and vacuously succeeds, so only ONE
failing store invocation happens, only one failure is logged, no error is
raised, and the success summary is logged; with R = 0 the final
if exc: raise exc reads a name the except clause has unbound, so the call
raises NameError instead of the store error. -/
theorem C1_retry_exhaustion_eval :
    do_update (natCfg (some 1) 1 true 0) storeFailAll ⟨[7], 3⟩ none none =
      ⟨⟨[], 3⟩,
        [Event.bulkWrite [WriteOp.updateOne 7 107 true] false,
         Event.logExc (FailLog.retrying 1 1) (Err.storeErr 0),
         Event.logInfo 1 3],
        Outcome.ret PyRet.pNone⟩
    ∧ do_update (natCfg (some 1) 0 true 0) storeFailAll ⟨[7], 3⟩ none none =
      ⟨⟨[], 3⟩,
        [Event.bulkWrite [WriteOp.updateOne 7 107 true] false,
         Event.logExc FailLog.single (Err.storeErr 0)],
        Outcome.exn PyErr.nameError⟩ :=
  ⟨rfl, rfl⟩

/-- C2: claimed — every retried attempt resubmits the same full batch,
reusing the operations built from the drained queue.  What the code does
instead, evaluated here: with n_retry = 1 and an always-failing store, in
update mode the whole run contains exactly one store invocation (the retry
rebuilt from the empty queue and submitted nothing, then reported success);
in insert mode the retry re-pops the already drained deque and dies on
IndexError, ending in the NameError of the unbound exc read. -/
theorem C2_retry_reuse_eval :
    ((do_update (natCfg (some 1) 1 true 0) storeFailAll ⟨[7], 3⟩ none none).evs.countP
        is_store_call = 1
      ∧ (do_update (natCfg (some 1) 1 true 0) storeFailAll ⟨[7], 3⟩ none none).out =
        Outcome.ret PyRet.pNone)
    ∧ do_update (natCfg (some 1) 1 false 0) storeFailAll ⟨[7], 3⟩ none none =
      ⟨⟨[], 3⟩,
        [Event.insertMany [7],
         Event.logExc (FailLog.retrying 1 1) (Err.storeErr 0),
         Event.logExc (FailLog.last 2) Err.indexError],
        Outcome.exn PyErr.nameError⟩ :=
  ⟨⟨rfl, rfl⟩, rfl⟩

/-- C3 counterexample: claimed — each failed attempt that is followed by
another attempt sleeps backoff_time seconds first.  Evaluated here with
backoff_time = 1 and a failing first attempt followed by a second attempt:
the full trace contains no sleep at all (the retry loop of do_update has no
sleep call), refuting the claimed lower bound of T = 1 on the blocking
delay between the attempts. -/
theorem C3_backoff_cex :
    (do_update (natCfg (some 1) 1 true 1) storeFailAll ⟨[7], 3⟩ none none).evs =
      [Event.bulkWrite [WriteOp.updateOne 7 107 true] false,
       Event.logExc (FailLog.retrying 1 1) (Err.storeErr 0),
       Event.logInfo 1 3]
    ∧ (do_update (natCfg (some 1) 1 true 1) storeFailAll ⟨[7], 3⟩ none none).evs.countP
        is_sleep = 0 :=
  ⟨rfl, rfl⟩

/-- C4: claimed — persist returns whether a flush occurred and do_update
returns True after a successful flush (as the do_update docstring also
says).  What the code does, evaluated here: on a successful flush do_update
falls off the end of the method body and returns None, and persist, which
never returns the do_update result, returns None as well; only the
below-threshold branch returns False. -/
theorem C4_return_value_eval :
    (do_update (natCfg (some 1) 0 true 0) storeOK ⟨[7], 3⟩ none none).out =
      Outcome.ret PyRet.pNone
    ∧ (persist (natCfg (some 1) 0 true 0) storeOK ⟨[], 0⟩ 7).out = Outcome.ret PyRet.pNone
    ∧ Outcome.ret PyRet.pNone ≠ Outcome.ret PyRet.pTrue
    ∧ (do_update (natCfg (some 2) 0 true 0) storeOK ⟨[7], 3⟩ none none).out =
      Outcome.ret PyRet.pFalse :=
  ⟨rfl, rfl, by decide, rfl⟩

/-- C5 counterexample: claimed — finalize forces a flush attempt regardless
of the current queue size.  Evaluated here on an empty queue: the forced
threshold is 1, the zero-length queue is below it, so finalize performs no
store invocation at all and returns the no-op signal False. -/
theorem C5_finalize_cex :
    finalize (natCfg (some 5) 1 true 0) storeOK ⟨[], 4⟩ =
      ⟨⟨[], 4⟩, [], Outcome.ret PyRet.pFalse⟩ :=
  rfl

/-- C7 counterexample: claimed — records are converted to operations in
most-recently-queued-first order.  Evaluated here: persisting record 1 then
record 2 (batch size 5, so no automatic flush) leaves the deque as [2, 1]
(newest at the left end), and the forced flush builds the bulk operations
as [op for 1, op for 2] — oldest first — which differs from the claimed
most-recent-first order [op for 2, op for 1]. -/
theorem C7_batch_order_cex :
    (persist (natCfg (some 5) 0 true 0) storeOK ⟨[], 0⟩ 1).state = ⟨[1], 1⟩
    ∧ (persist (natCfg (some 5) 0 true 0) storeOK ⟨[1], 1⟩ 2).state = ⟨[2, 1], 2⟩
    ∧ (finalize (natCfg (some 5) 0 true 0) storeOK ⟨[2, 1], 2⟩).evs =
      [Event.bulkWrite
        [WriteOp.updateOne 1 101 true, WriteOp.updateOne 2 102 true] false,
       Event.logInfo 2 2]
    ∧ ([WriteOp.updateOne 1 101 true, WriteOp.updateOne 2 102 true] :
        List (WriteOp Nat Nat)) ≠
      [WriteOp.updateOne 2 102 true, WriteOp.updateOne 1 101 true] :=
  ⟨rfl, rfl, rfl, by decide⟩

/-- C9: claimed — a mapping query passed to drop_model_data deletes exactly
the documents matching it as a raw query and the method returns the deleted
count.  Evaluated here on the collection [1, 2, 1] with query 1: both
matching documents are deleted (the deletion part holds) and the wrapped
callable hands the base method the count 2, but the override discards the
base-method result — its body ends with a bare call and no return — so the
method returns None, not the count, contradicting its own docstring. -/
theorem C9_drop_model_data_eval :
    drop_model_data natMatch 1 [1, 2, 1] = ([2], PyRet.pNone)
    ∧ (super_drop_model_data (fun c => delete_by_query natMatch 1 c) [1, 2, 1]).2 = 2 :=
  ⟨rfl, rfl⟩

/-- The epilogue of do_update adds no sleep event. -/
lemma sleep_not_mem_finish (cfg : Config α β γ μ) (st : PersistState α)
    (r : LoopRes α β γ μ) (t : Int) (h : Event.sleep t ∉ r.evs) :
    Event.sleep t ∉ (finish_update cfg st r).evs := by
  unfold finish_update
  split
  · exact h
  · dsimp only
    simp only [List.mem_append]
    rintro (h1 | h2)
    · exact h h1
    · revert h2
      split <;> simp

/-- C3 (amended): no sleep is ever performed by do_update — the retry loop
re-attempts immediately, whatever backoff_time is configured, so the
blocking delay introduced between attempts is zero. -/
theorem C3_no_backoff (cfg : Config α β γ μ) (store : Nat → Option Nat)
    (st : PersistState α) (m : Option Int) (ua : Option Bool) (t : Int) :
    Event.sleep t ∉ (do_update cfg store st m ua).evs := by
  cases hb : below_threshold st.queue.length
      (effective_min_batch_size cfg.batch_size m) with
  | true =>
    rw [do_update_noop cfg store st m ua hb]
    simp
  | false =>
    rw [do_update_flush cfg store st m ua hb]
    exact sleep_not_mem_finish cfg st _ t
      (sleep_not_mem_loop cfg store (ua.getD cfg.update) (1 + cfg.n_retry)
        st.queue.length (1 + cfg.n_retry) 0 st.queue 0 ExcSt.noneVal t)

/-- Witness for C3_no_backoff at a concrete failing run with
backoff_time = 1. -/
theorem C3_no_backoff_witness :
    Event.sleep 1 ∉
      (do_update (natCfg (some 1) 1 true 1) storeFailAll ⟨[7], 3⟩ none none).evs :=
  C3_no_backoff (natCfg (some 1) 1 true 1) storeFailAll ⟨[7], 3⟩ none none 1

/-- C5 (amended): finalize is exactly do_update forced to minimal batch
size 1 — hence the same retry policy — and for every NON-EMPTY queue it
performs a flush attempt whatever batch_size is configured: it does not
return the no-op signal False and its trace opens with a store invocation.
An empty queue is still below the forced threshold 1, so no attempt is made
there (see the counterexample). -/
theorem C5_finalize (cfg : Config α β γ μ) (store : Nat → Option Nat) (st : PersistState α)
    (hne : st.queue ≠ []) :
    finalize cfg store st = do_update cfg store st (some 1) none
    ∧ (finalize cfg store st).out ≠ Outcome.ret PyRet.pFalse
    ∧ head_is_store_call (finalize cfg store st).evs = true := by
  have hlen : st.queue.length ≠ 0 := by
    intro h0
    exact hne (List.length_eq_zero.mp h0)
  have heff : effective_min_batch_size cfg.batch_size (some 1) = some 1 := by
    unfold effective_min_batch_size
    norm_num
  have hth : below_threshold st.queue.length
      (effective_min_batch_size cfg.batch_size (some 1)) = false := by
    rw [heff]
    unfold below_threshold
    simp only [decide_eq_false_iff_not]
    omega
  refine ⟨rfl, ?_, ?_⟩
  · show (do_update cfg store st (some 1) none).out ≠ Outcome.ret PyRet.pFalse
    rw [do_update_flush cfg store st (some 1) none hth]
    exact finish_update_out_ne_false cfg st _
  · show head_is_store_call (do_update cfg store st (some 1) none).evs = true
    exact flush_head_store_call cfg store st (some 1) none hth hne

/-- Witness for C5_finalize at the concrete non-empty queue [7]. -/
theorem C5_finalize_witness :
    ((⟨[7], 4⟩ : PersistState Nat).queue ≠ [])
    ∧ finalize (natCfg (some 5) 0 true 0) storeOK ⟨[7], 4⟩ =
        do_update (natCfg (some 5) 0 true 0) storeOK ⟨[7], 4⟩ (some 1) none :=
  ⟨by decide, (C5_finalize (natCfg (some 5) 0 true 0) storeOK ⟨[7], 4⟩ (by decide)).1⟩

/-- C6: the threshold check of do_update — whenever the queued count is
below the effective minimal batch size, the call is a no-op returning the
False signal with no event and untouched state; the effective size gives
precedence to the per-call argument over the configured batch_size, and a
non-positive (or missing) value on either path is normalised to infinity
(none), below which every count lies, so no automatic flush can occur. -/
theorem C6_threshold_check (cfg : Config α β γ μ) (store : Nat → Option Nat)
    (st : PersistState α) (m : Option Int) (ua : Option Bool)
    (h : below_threshold st.queue.length
      (effective_min_batch_size cfg.batch_size m) = true) :
    do_update cfg store st m ua = ⟨st, [], Outcome.ret PyRet.pFalse⟩
    ∧ (∀ k : Int, effective_min_batch_size cfg.batch_size (some k) =
        if k ≤ 0 then none else some k)
    ∧ (∀ b : Int, b ≤ 0 → effective_min_batch_size (some b) none = none)
    ∧ effective_min_batch_size none none = none
    ∧ (∀ n : Nat, below_threshold n none = true) := by
  refine ⟨do_update_noop cfg store st m ua h, fun k => rfl, fun b hb => ?_, rfl,
    fun n => rfl⟩
  unfold effective_min_batch_size
  dsimp only
  rw [if_pos hb]

/-- Witness for C6_threshold_check: one queued record against batch size
2. -/
theorem C6_threshold_check_witness :
    below_threshold (⟨[7], 0⟩ : PersistState Nat).queue.length
        (effective_min_batch_size (natCfg (some 2) 0 true 0).batch_size none) = true
    ∧ do_update (natCfg (some 2) 0 true 0) storeOK ⟨[7], 0⟩ none none =
        ⟨⟨[7], 0⟩, [], Outcome.ret PyRet.pFalse⟩ :=
  ⟨by decide,
    (C6_threshold_check (natCfg (some 2) 0 true 0) storeOK ⟨[7], 0⟩ none none
      (by decide)).1⟩

/-- C7 (amended): within a batch, records are converted to write operations
in LEAST-recently-queued-first (FIFO) order: persist prepends with
appendleft, so the deque list holds the newest record at its head, and the
flush pops from the opposite end, building the operations as the reverse of
the deque — oldest record first.  The first trace event of an update-mode
flush carries exactly that operation list. -/
theorem C7_batch_order (cfg : Config α β γ μ) (store : Nat → Option Nat)
    (st : PersistState α) (m : Option Int) (ua : Option Bool)
    (hu : ua.getD cfg.update = true)
    (hth : below_threshold st.queue.length
      (effective_min_batch_size cfg.batch_size m) = false)
    (hne : st.queue ≠ []) :
    (do_update cfg store st m ua).evs.head? =
      some (Event.bulkWrite (st.queue.reverse.map (make_update_op cfg)) false) := by
  rw [do_update_flush cfg store st m ua hth, hu, Nat.add_comm 1 cfg.n_retry]
  exact finish_update_head cfg st _ _
    (update_loop_head_bulk cfg store (cfg.n_retry + 1) st.queue.length cfg.n_retry 0 0
      st.queue ExcSt.noneVal hne)

/-- Witness for C7_batch_order on the deque [2, 1] (record 1 queued before
record 2). -/
theorem C7_batch_order_witness :
    (do_update (natCfg (some 1) 0 true 0) storeOK ⟨[2, 1], 2⟩ none none).evs.head? =
      some (Event.bulkWrite
        ((⟨[2, 1], 2⟩ : PersistState Nat).queue.reverse.map
          (make_update_op (natCfg (some 1) 0 true 0))) false) :=
  C7_batch_order (natCfg (some 1) 0 true 0) storeOK ⟨[2, 1], 2⟩ none none rfl (by decide)
    (by decide)

/-- C8: pure-insert mode — when the resolved update flag is false, the
threshold is met and the first store invocation succeeds, the flush builds
exactly one model instance per queued record (as many as were queued),
hands precisely those to the insert-many primitive, never invokes the
bulk-write primitive, drains the queue and returns None with the success
summary logged. -/
theorem C8_pure_insert (cfg : Config α β γ μ) (store : Nat → Option Nat)
    (st : PersistState α) (m : Option Int) (ua : Option Bool)
    (hu : ua.getD cfg.update = false)
    (hth : below_threshold st.queue.length
      (effective_min_batch_size cfg.batch_size m) = false)
    (hs : store 0 = none) :
    do_update cfg store st m ua =
      ⟨⟨[], st.count⟩,
        Event.insertMany (st.queue.reverse.map cfg.model) ::
          (if cfg.logger then [Event.logInfo st.queue.length st.count] else []),
        Outcome.ret PyRet.pNone⟩
    ∧ (st.queue.reverse.map cfg.model).length = st.queue.length
    ∧ (∀ ops b, Event.bulkWrite ops b ∉ (do_update cfg store st m ua).evs) := by
  have h2 : st.queue.reverse.take st.queue.length = st.queue.reverse := by
    rw [← List.length_reverse st.queue]
    exact List.take_length _
  have hmain : do_update cfg store st m ua =
      ⟨⟨[], st.count⟩,
        Event.insertMany (st.queue.reverse.map cfg.model) ::
          (if cfg.logger then [Event.logInfo st.queue.length st.count] else []),
        Outcome.ret PyRet.pNone⟩ := by
    rw [do_update_flush cfg store st m ua hth, hu, Nat.add_comm 1 cfg.n_retry,
      update_loop_succ_false,
      insert_attempt_eq_ok cfg store st.queue.length st.queue 0 (Nat.lt_irrefl _) hs,
      loop_step_ok cfg store false (cfg.n_retry + 1) st.queue.length cfg.n_retry 0 _ rfl]
    unfold finish_update
    dsimp only
    simp [h2]
  refine ⟨hmain, by simp, ?_⟩
  intro ops b
  rw [hmain]
  cases hl : cfg.logger <;> simp [hl]

/-- Witness for C8_pure_insert: one record, insert mode, succeeding
store. -/
theorem C8_pure_insert_witness :
    do_update (natCfg (some 1) 0 false 0) storeOK ⟨[7], 3⟩ none none =
      ⟨⟨[], 3⟩, [Event.insertMany [7], Event.logInfo 1 3], Outcome.ret PyRet.pNone⟩ :=
  (C8_pure_insert (natCfg (some 1) 0 false 0) storeOK ⟨[7], 3⟩ none none rfl (by decide)
    rfl).1

/-- C10: the record queued by persist (and hence the one a later flush
persists) is the from_dict transformation of the caller document when the
model defines from_dict, and the unchanged document otherwise; below the
flush threshold the call leaves exactly that record prepended and the
counter incremented, returning None. -/
theorem C10_from_dict_transform (cfg : Config α β γ μ) (store : Nat → Option Nat)
    (st : PersistState α) (doc : α)
    (h : below_threshold (st.queue.length + 1)
      (effective_min_batch_size cfg.batch_size none) = true) :
    persist cfg store st doc =
      ⟨⟨apply_from_dict cfg doc :: st.queue, st.count + 1⟩, [], Outcome.ret PyRet.pNone⟩
    ∧ (∀ f, cfg.from_dict = some f → apply_from_dict cfg doc = f doc)
    ∧ (cfg.from_dict = none → apply_from_dict cfg doc = doc) := by
  have hno := do_update_noop cfg store
    ⟨apply_from_dict cfg doc :: st.queue, st.count + 1⟩ none none (by simpa using h)
  refine ⟨?_, ?_, ?_⟩
  · simp only [persist]
    rw [hno]
  · intro f hf
    unfold apply_from_dict
    rw [hf]
  · intro hf
    unfold apply_from_dict
    rw [hf]

/-- Witness for C10_from_dict_transform: a model with from_dict adding 10
transforms document 7 into the queued record 17. -/
theorem C10_from_dict_transform_witness :
    below_threshold ((⟨[], 0⟩ : PersistState Nat).queue.length + 1)
        (effective_min_batch_size natCfgFD.batch_size none) = true
    ∧ persist natCfgFD storeOK ⟨[], 0⟩ 7 = ⟨⟨[17], 1⟩, [], Outcome.ret PyRet.pNone⟩ :=
  ⟨by decide, (C10_from_dict_transform natCfgFD storeOK ⟨[], 0⟩ 7 (by decide)).1⟩

end Tesse
